import Mathlib

/-!
# Verification of the OASIS VBM dataset fetcher

Shallow embedding of `nidata/anatomical/oasis_vbm/datasets.py`
(`OasisVbmDataset.fetch` and the module-level constants), together with
theorems settling the specification claims about it.

Modelling conventions:
* Python ints are `Int` (the requested subject count may be negative);
  counts that are known non-negative when used become `Nat` via `Int.toNat`.
* Exceptions are an explicit error type `FetchErr`; the fetch operation
  returns `Except FetchErr Bunch`.
  Note that the module never imports the `warnings` module, so the
  `warnings.warn(...)` calls on the clamping branches raise `NameError`
  at runtime; this is modelled faithfully by `FetchErr.nameError`.
* The external fetcher collaborator returns one local path per manifest
  entry, in order; it is modelled as returning the per-entry relative
  destination path (local paths and relative paths share base names,
  which is all the post-processing uses).
* `np.recfromcsv` on the covariates file is modelled by passing the id
  column of the parsed table (`csv_ids : List String`) as an input.
* The Python method str.split with separator sep (nonempty separator) is modelled by the
  executable `pySplit` on character lists, and `sorted` by a stable
  insertion sort `pySorted` (identical output on integer lists).
-/

namespace OasisVbm

/-- Options passed with each manifest entry; the images archive entries
carry the uncompress option set to true, the csv/dua entries carry no options. -/
structure FetchOpts where
  uncompress : Bool
deriving Repr, DecidableEq

/-- Exceptions the subject-count check can raise.
`nameError`: `warnings.warn` is reached but `warnings` was never imported.
`valueError`: `raise ValueError("Incorrect number of subjects (%d)")`. -/
inductive FetchErr where
  | nameError
  | valueError
deriving Repr, DecidableEq

/-- The per-variant subject cap: 403 for the DARTEL variant, 415 otherwise. -/
def cap (dartel_version : Bool) : Int :=
  if dartel_version then 403 else 415

/-- Lines 106-123: default `None` to the cap, then the over-cap branch
(which calls `warnings.warn`, i.e. raises `NameError` since `warnings`
is not imported), then the `n_subjects < 1` check raising `ValueError`. -/
def resolve_n_subjects (n_subjects : Option Int) (dartel_version : Bool) :
    Except FetchErr Int :=
  let n := n_subjects.getD (cap dartel_version)
  if n > cap dartel_version then Except.error FetchErr.nameError
  else if n < 1 then Except.error FetchErr.valueError
  else Except.ok n

/-- Hardcoded NITRC image-archive URL (lines 127-132). -/
def hardcoded_url_images (dartel_version : Bool) : String :=
  if dartel_version then
    "https://www.nitrc.org/frs/download.php/6364/archive_dartel.tgz?i_agree=1&download_now=1"
  else
    "https://www.nitrc.org/frs/download.php/6359/archive.tgz?i_agree=1&download_now=1"

/-- Hardcoded NITRC covariates-csv URL (lines 134-135). -/
def hardcoded_url_csv : String :=
  "https://www.nitrc.org/frs/download.php/6348/oasis_cross-sectional.csv?i_agree=1&download_now=1"

/-- Hardcoded NITRC data-usage-agreement URL (lines 136-137). -/
def hardcoded_url_dua : String :=
  "https://www.nitrc.org/frs/download.php/6349/data_usage_agreement.txt?i_agree=1&download_now=1"

/-- The three source URLs computed by lines 126-144. -/
structure SourceUrls where
  url_images : String
  url_csv : String
  url_dua : String
deriving Repr, DecidableEq

/-- Lines 126-144: hardcoded public URLs when no override is given,
otherwise the override base with the four fixed suffixes. -/
def resolveUrls (url : Option String) (dartel_version : Bool) : SourceUrls :=
  match url with
  | none =>
      { url_images := hardcoded_url_images dartel_version
        url_csv := hardcoded_url_csv
        url_dua := hardcoded_url_dua }
  | some u =>
      { url_images := u ++ (if dartel_version then "/archive_dartel.tgz" else "/archive.tgz")
        url_csv := u ++ "/oasis_cross-sectional.csv"
        url_dua := u ++ "/data_usage_agreement.txt" }

/-- Lines 149-152: the fixed list of subjects missing from the archive. -/
def missing_subjects : List Nat :=
  [8, 24, 36, 48, 89, 93, 100, 118, 128, 149, 154,
   171, 172, 175, 187, 194, 196, 215, 219, 225, 242,
   245, 248, 251, 252, 257, 276, 297, 306, 320, 324,
   334, 347, 360, 364, 391, 393, 412, 414, 427, 436]

/-- Lines 156-157: outliers removed in the DARTEL variant. -/
def removed_outliers_dartel : List Nat :=
  [27, 57, 66, 83, 122, 157, 222, 269, 282, 287, 309, 428]

/-- Line 175: the single outlier removed in the standard variant. -/
def removed_outliers_standard : List Nat :=
  [390]

/-- Stable insertion of `a` into a list. -/
def insertSorted (a : Nat) : List Nat → List Nat
  | [] => [a]
  | b :: bs => if a ≤ b then a :: b :: bs else b :: insertSorted a bs

/-- The Python builtin sorted on an integer list (stable, ascending). -/
def pySorted : List Nat → List Nat
  | [] => []
  | a :: as => insertSorted a (pySorted as)

/-- Lines 158 / 176: `missing_subjects = sorted(missing_subjects + removed_outliers)`. -/
def mergedExclusions (dartel_version : Bool) : List Nat :=
  pySorted (missing_subjects ++
    (if dartel_version then removed_outliers_dartel else removed_outliers_standard))

/-- The subject enumeration `for s in range(1, 457) if s not in missing_subjects`
shared by the gray- and white-matter comprehensions. -/
def availableSubjects (dartel_version : Bool) : List Nat :=
  (List.range' 1 456).filter (fun s => decide (s ∉ mergedExclusions dartel_version))

/-- `"%04d" % n`: decimal digits left-padded with zeros to width 4. -/
def zpad4 (n : Nat) : String :=
  let s := toString n
  String.mk (List.replicate (4 - s.length) '0') ++ s

/-- The gray-matter relative path
`OAS1_%04d_MR1/mwrc1OAS1_%04d_MR1_mpr_anon_fslswapdim_bet.nii.gz` (DARTEL)
resp. `mwc1...` (standard), with `os.path.join` as `/`. -/
def gmRelPath (dartel_version : Bool) (s : Nat) : String :=
  "OAS1_" ++ zpad4 s ++ "_MR1/" ++ (if dartel_version then "mwrc1" else "mwc1") ++
    "OAS1_" ++ zpad4 s ++ "_MR1_mpr_anon_fslswapdim_bet.nii.gz"

/-- The white-matter relative path (`mwrc2` resp. `mwc2`). -/
def wmRelPath (dartel_version : Bool) (s : Nat) : String :=
  "OAS1_" ++ zpad4 s ++ "_MR1/" ++ (if dartel_version then "mwrc2" else "mwc2") ++
    "OAS1_" ++ zpad4 s ++ "_MR1_mpr_anon_fslswapdim_bet.nii.gz"

/-- A manifest entry: (relative destination path, source URL, options). -/
abbrev Entry := String × String × FetchOpts

/-- The options dict with uncompress set to True (line 146). -/
def opts : FetchOpts := ⟨true⟩

/-- `file_names_gm`: comprehension over available subjects, truncated with
`[:n_subjects]` at its definition (line 165/183) and again at line 194. -/
def file_names_gm (dartel_version : Bool) (url_images : String) (n_subjects : Nat) :
    List Entry :=
  ((((availableSubjects dartel_version).map
      (fun s => (gmRelPath dartel_version s, url_images, opts))).take n_subjects).take n_subjects)

/-- `file_names_wm`: comprehension over available subjects, truncated only
once, at line 195. -/
def file_names_wm (dartel_version : Bool) (url_images : String) (n_subjects : Nat) :
    List Entry :=
  (((availableSubjects dartel_version).map
      (fun s => (wmRelPath dartel_version s, url_images, opts))).take n_subjects)

/-- Line 191: the single covariates-csv entry. -/
def file_names_extvars (url_csv : String) : List Entry :=
  [("oasis_cross-sectional.csv", url_csv, ⟨false⟩)]

/-- Line 192: the single data-usage-agreement entry. -/
def file_names_dua (url_dua : String) : List Entry :=
  [("data_usage_agreement.txt", url_dua, ⟨false⟩)]

/-- Lines 197-198: the full manifest, concatenated in order
gray ++ white ++ csv ++ agreement. -/
def file_names (dartel_version : Bool) (urls : SourceUrls) (n_subjects : Nat) :
    List Entry :=
  file_names_gm dartel_version urls.url_images n_subjects
    ++ file_names_wm dartel_version urls.url_images n_subjects
    ++ file_names_extvars urls.url_csv
    ++ file_names_dua urls.url_dua

/-- The external fetcher collaborator (lines 199-200): returns one local
path per manifest entry, in the same order; modelled as the per-entry
relative destination path. -/
def fetcherFetch (fns : List Entry) : List String :=
  fns.map (fun e => e.1)

/-- The local-path list `files` returned by the fetcher. -/
def localFiles (dartel_version : Bool) (url : Option String) (n_subjects : Nat) :
    List String :=
  fetcherFetch (file_names dartel_version (resolveUrls url dartel_version) n_subjects)

/-- Line 203: `gm_maps = files[:n_subjects]`. -/
def gm_maps (dartel_version : Bool) (url : Option String) (n_subjects : Nat) :
    List String :=
  (localFiles dartel_version url n_subjects).take n_subjects

/-- Line 204: `wm_maps = files[n_subjects:(2 * n_subjects)]`. -/
def wm_maps (dartel_version : Bool) (url : Option String) (n_subjects : Nat) :
    List String :=
  (((localFiles dartel_version url n_subjects).drop n_subjects).take n_subjects)

/-- Line 205: `ext_vars_file = files[-2]`. -/
def ext_vars_file (dartel_version : Bool) (url : Option String) (n_subjects : Nat) :
    String :=
  (localFiles dartel_version url n_subjects).getD
    ((localFiles dartel_version url n_subjects).length - 2) ""

/-- Line 206: `data_usage_agreement = files[-1]`. -/
def data_usage_agreement (dartel_version : Bool) (url : Option String) (n_subjects : Nat) :
    String :=
  (localFiles dartel_version url n_subjects).getD
    ((localFiles dartel_version url n_subjects).length - 1) ""

/-- `dropLead sep l` removes `sep` from the front of `l` if it is there. -/
def dropLead : List Char → List Char → Option (List Char)
  | [], l => some l
  | _ :: _, [] => none
  | p :: ps, c :: cs => if p = c then dropLead ps cs else none

/-- Fuelled worker for the Python split method. -/
def pySplitFuel (sep : List Char) : Nat → List Char → List (List Char)
  | _, [] => [[]]
  | 0, l => [l]
  | Nat.succ k, c :: cs =>
    match dropLead sep (c :: cs) with
    | some rest => [] :: pySplitFuel sep k rest
    | none =>
      match pySplitFuel sep k cs with
      | [] => [[c]]
      | p :: ps => (c :: p) :: ps

/-- The Python call s.split(sep) for a nonempty separator, on character lists. -/
def pySplit (sep l : List Char) : List (List Char) :=
  pySplitFuel sep l.length l

/-- `os.path.basename`: the text after the last `/`. -/
def basename (p : String) : String :=
  String.mk ((pySplit ['/'] p.data).getLastD p.data)

/-- Lines 211-214 applied to one gray-matter path:
`"OAS1" + str.split(os.path.basename(x), "OAS1")[1][:9]`. -/
def subjectIdOf (x : String) : String :=
  "OAS1" ++ String.mk (((pySplit "OAS1".data (basename x).data).getD 1 []).take 9)

/-- Lines 211-214: `actual_subjects_ids`, one id token per gray-matter map. -/
def actual_subjects_ids (gm : List String) : List String :=
  gm.map subjectIdOf

/-- Lines 215-217: boolean mask over the csv id column, then row filtering;
keeps (in original order) the rows whose id is among the retrieved tokens. -/
def filterCsv (csv_ids : List String) (gm : List String) : List String :=
  csv_ids.filter (fun i => decide (i ∈ actual_subjects_ids gm))

/-- The returned `Bunch` (lines 219-223); `ext_vars` is represented by the
filtered id column of the covariates table. -/
structure Bunch where
  gray_matter_maps : List String
  white_matter_maps : List String
  ext_vars : List String
  data_usage_agreement : String
deriving Repr, DecidableEq

/-- Everything after the subject-count checks, for a validated count `n`. -/
def buildBunch (csv_ids : List String) (url : Option String)
    (dartel_version : Bool) (n : Nat) : Bunch :=
  { gray_matter_maps := gm_maps dartel_version url n
    white_matter_maps := wm_maps dartel_version url n
    ext_vars := filterCsv csv_ids (gm_maps dartel_version url n)
    data_usage_agreement := data_usage_agreement dartel_version url n }

/-- `OasisVbmDataset.fetch` end to end: subject-count resolution, then
manifest construction, fetch and post-processing. -/
def fetch (csv_ids : List String) (n_subjects : Option Int)
    (dartel_version : Bool) (url : Option String) : Except FetchErr Bunch :=
  (resolve_n_subjects n_subjects dartel_version).map
    (fun n => buildBunch csv_ids url dartel_version n.toNat)


/-! ## Helper lemmas -/

set_option maxRecDepth 10000 in
lemma length_availableSubjects_dartel : (availableSubjects true).length = 403 := by
  decide

set_option maxRecDepth 10000 in
lemma length_availableSubjects_standard : (availableSubjects false).length = 414 := by
  decide

lemma length_file_names_gm (d : Bool) (u : String) (n : Nat) :
    (file_names_gm d u n).length = min n (availableSubjects d).length := by
  simp [file_names_gm, List.take_take]

lemma length_file_names_wm (d : Bool) (u : String) (n : Nat) :
    (file_names_wm d u n).length = min n (availableSubjects d).length := by
  simp [file_names_wm]

lemma length_localFiles (d : Bool) (u : Option String) (n : Nat) :
    (localFiles d u n).length =
      min n (availableSubjects d).length + min n (availableSubjects d).length + 2 := by
  simp [localFiles, fetcherFetch, file_names, file_names_gm, file_names_wm,
        file_names_extvars, file_names_dua, List.take_take]
  omega

lemma resolve_n_subjects_ok {req : Option Int} {d : Bool} {nI : Int}
    (h : resolve_n_subjects req d = Except.ok nI) :
    1 ≤ nI ∧ nI ≤ cap d ∧ nI = req.getD (cap d) := by
  simp only [resolve_n_subjects] at h
  split at h
  · exact absurd h (by simp)
  · split at h
    · exact absurd h (by simp)
    · injection h with h3
      omega

/-! ## Claim theorems -/

/-- C9: when the requested subject count is unset (None), the effective
count defaults to the cap of the variant: 403 for the DARTEL variant and
415 for the standard variant. -/
theorem default_count_is_variant_cap :
    resolve_n_subjects none true = Except.ok 403 ∧
    resolve_n_subjects none false = Except.ok 415 :=
  ⟨rfl, rfl⟩

/-- C8: for every base override URL X, the derived source URLs are exactly
X followed by the fixed suffixes, and the hardcoded public URLs are used
only when no override is supplied. -/
theorem derived_urls_from_base_override (X : String) :
    resolveUrls (some X) true =
      ⟨X ++ "/archive_dartel.tgz", X ++ "/oasis_cross-sectional.csv",
        X ++ "/data_usage_agreement.txt"⟩ ∧
    resolveUrls (some X) false =
      ⟨X ++ "/archive.tgz", X ++ "/oasis_cross-sectional.csv",
        X ++ "/data_usage_agreement.txt"⟩ ∧
    resolveUrls none true =
      ⟨hardcoded_url_images true, hardcoded_url_csv, hardcoded_url_dua⟩ ∧
    resolveUrls none false =
      ⟨hardcoded_url_images false, hardcoded_url_csv, hardcoded_url_dua⟩ :=
  ⟨rfl, rfl, rfl, rfl⟩

/-- C3 (code bug): requesting more subjects than the cap does NOT merely
warn and clamp; the `warnings.warn` call raises `NameError` because the
module never imports `warnings`, so the call fails instead of continuing.
This theorem evaluates the embedded code at the failing inputs. -/
theorem overcap_request_raises_nameError :
    resolve_n_subjects (some 404) true = Except.error FetchErr.nameError ∧
    resolve_n_subjects (some 416) false = Except.error FetchErr.nameError ∧
    fetch [] (some 404) true none = Except.error FetchErr.nameError ∧
    fetch [] (some 416) false none = Except.error FetchErr.nameError :=
  ⟨rfl, rfl, rfl, rfl⟩

/-- C6: for every requested subject count strictly less than 1, the
operation raises ValueError and no manifest is built (the fetch result is
the error, produced before any URL resolution or manifest construction). -/
theorem subzero_request_raises_valueError
    (csv_ids : List String) (u : Option String) (d : Bool) (r : Int)
    (h : r < 1) :
    resolve_n_subjects (some r) d = Except.error FetchErr.valueError ∧
    fetch csv_ids (some r) d u = Except.error FetchErr.valueError := by
  have h1 : resolve_n_subjects (some r) d = Except.error FetchErr.valueError := by
    simp only [resolve_n_subjects, Option.getD_some]
    have hc : ¬ (r > cap d) := by cases d <;> simp [cap] <;> omega
    rw [if_neg hc, if_pos h]
  exact ⟨h1, by simp [fetch, h1, Except.map]⟩

/-- Witness for C6 at the concrete input requested = 0, DARTEL variant. -/
theorem subzero_request_raises_valueError_witness :
    resolve_n_subjects (some 0) true = Except.error FetchErr.valueError ∧
    fetch [] (some 0) true none = Except.error FetchErr.valueError :=
  subzero_request_raises_valueError [] none true 0 (by decide)

/-- C7 counterexample: the DARTEL outlier list has 12 entries, not 13 as
the claim states. -/
theorem dartel_outlier_list_has_twelve_entries :
    removed_outliers_dartel.length = 12 ∧
    ¬ (removed_outliers_dartel.length = 13) := by
  decide

/-- C7 (amended): the outlier set has 12 entries for the DARTEL variant and
1 entry for the standard variant, and the merged, sorted exclusion set has
exactly len(missing_subjects) + 12 entries for the DARTEL variant and
exactly len(missing_subjects) + 1 entries for the standard variant. -/
theorem exclusion_set_sizes :
    removed_outliers_dartel.length = 12 ∧
    removed_outliers_standard.length = 1 ∧
    (mergedExclusions true).length = missing_subjects.length + 12 ∧
    (mergedExclusions false).length = missing_subjects.length + 1 := by
  decide

lemma localFiles_eq_split (d : Bool) (u : Option String) (n : Nat) :
    localFiles d u n =
      ((file_names_gm d (resolveUrls u d).url_images n).map Prod.fst
        ++ (file_names_wm d (resolveUrls u d).url_images n).map Prod.fst)
        ++ ["oasis_cross-sectional.csv", "data_usage_agreement.txt"] := by
  simp [localFiles, fetcherFetch, file_names, file_names_extvars, file_names_dua]

lemma getD_append_pair_left (l : List String) (c d : String) :
    (l ++ [c, d]).getD ((l ++ [c, d]).length - 2) "" = c := by
  have h : (l ++ [c, d]).length - 2 = l.length := by simp
  rw [h, List.getD_eq_getElem?_getD, List.getElem?_append_right (Nat.le_refl _)]
  simp

lemma getD_append_pair_right (l : List String) (c d : String) :
    (l ++ [c, d]).getD ((l ++ [c, d]).length - 1) "" = d := by
  have h : (l ++ [c, d]).length - 1 = l.length + 1 := by simp
  rw [h, List.getD_eq_getElem?_getD, List.getElem?_append_right (by omega)]
  rw [show l.length + 1 - l.length = 1 from by omega]
  simp

/-- C2 counterexample: effective_count = 415 is valid for the standard
variant (1 ≤ 415 ≤ cap false = 415), yet the built manifest has only 414
gray-matter and 414 white-matter entries, not 415. -/
theorem manifest_lengths_not_always_effective_count :
    (1 : Int) ≤ 415 ∧ (415 : Int) ≤ cap false ∧
    (file_names_gm false (hardcoded_url_images false) 415).length = 414 ∧
    (file_names_wm false (hardcoded_url_images false) 415).length = 414 := by
  refine ⟨by norm_num, by decide, ?_, ?_⟩
  · rw [length_file_names_gm, length_availableSubjects_standard]
    decide
  · rw [length_file_names_wm, length_availableSubjects_standard]
    decide

/-- C2 (amended): for every valid effective_count (1 ≤ effective_count ≤
the per-variant cap) and both variants, the gray- and white-matter manifest
lists have equal length; that length equals effective_count for the DARTEL
variant, and min(effective_count, 414) for the standard variant (which has
only 414 available subjects against its cap of 415). -/
theorem manifest_lengths_eq_min_effective_available
    (d : Bool) (u : String) (n : Nat) (h1 : 1 ≤ n) (h2 : (n : Int) ≤ cap d) :
    (file_names_gm d u n).length = (file_names_wm d u n).length ∧
    (file_names_gm d u n).length = (if d then n else min n 414) := by
  rw [length_file_names_gm, length_file_names_wm]
  cases d
  · rw [length_availableSubjects_standard]
    simp
  · rw [length_availableSubjects_dartel]
    simp only [cap, if_true] at h2
    have hn : n ≤ 403 := by exact_mod_cast h2
    rw [min_eq_left hn]
    simp

/-- Witness for C2 (amended) at the DARTEL variant with effective_count 5. -/
theorem manifest_lengths_eq_min_effective_available_witness :
    (file_names_gm true (hardcoded_url_images true) 5).length =
      (file_names_wm true (hardcoded_url_images true) 5).length ∧
    (file_names_gm true (hardcoded_url_images true) 5).length =
      (if true then 5 else min 5 414) :=
  manifest_lengths_eq_min_effective_available true (hardcoded_url_images true) 5
    (by decide) (by decide)

/-- C4: for the standard variant, enumerating 1..456 minus the merged
exclusion set (41 fixed missing subjects plus outlier 390, 42 exclusions)
yields exactly 414 available subjects, strictly fewer than the cap 415;
hence the gray- and white-matter manifest lists can never exceed 414
entries, for any requested count. -/
theorem standard_variant_available_count_lt_cap :
    (mergedExclusions false).length = 42 ∧
    (availableSubjects false).length = 414 ∧
    414 < 415 ∧
    ∀ (u : String) (n : Nat),
      (file_names_gm false u n).length ≤ 414 ∧
      (file_names_wm false u n).length ≤ 414 := by
  refine ⟨by decide, length_availableSubjects_standard, by norm_num, fun u n => ?_⟩
  rw [length_file_names_gm, length_file_names_wm, length_availableSubjects_standard]
  omega

/-- C1: every successful fetch returns a bundle whose gray-matter and
white-matter path lists both have length equal to the effective subject
count resolved for the call. -/
theorem fetch_map_lengths_eq_effective_count
    (csv_ids : List String) (url : Option String) (dartel_version : Bool)
    (requested : Option Int) (nI : Int) (b : Bunch)
    (hres : resolve_n_subjects requested dartel_version = Except.ok nI)
    (hfetch : fetch csv_ids requested dartel_version url = Except.ok b) :
    b.gray_matter_maps.length = nI.toNat ∧
    b.white_matter_maps.length = nI.toNat := by
  obtain ⟨hlo, hhi, -⟩ := resolve_n_subjects_ok hres
  have hb : b = buildBunch csv_ids url dartel_version nI.toNat := by
    unfold fetch at hfetch
    rw [hres] at hfetch
    simpa [Except.map] using hfetch.symm
  subst hb
  simp only [buildBunch, gm_maps, wm_maps, List.length_take, List.length_drop,
             length_localFiles]
  cases dartel_version
  · rw [length_availableSubjects_standard]
    simp only [cap, if_false] at hhi
    omega
  · rw [length_availableSubjects_dartel]
    simp only [cap, if_true] at hhi
    omega

/-- Witness for C1 at requested = 3 subjects, DARTEL variant. -/
theorem fetch_map_lengths_eq_effective_count_witness :
    (buildBunch [] none true (Int.toNat 3)).gray_matter_maps.length = Int.toNat 3 ∧
    (buildBunch [] none true (Int.toNat 3)).white_matter_maps.length = Int.toNat 3 :=
  fetch_map_lengths_eq_effective_count [] none true (some 3) 3
    (buildBunch [] none true (Int.toNat 3)) rfl rfl

/-- C5: the manifest concatenates gray-matter entries, then white-matter
entries, then the covariates csv entry, then the usage-agreement entry; the
result splitting is purely positional (first n paths, next n paths, index
length-2, index length-1), and whenever the effective count does not exceed
the available-subject count those slices recover exactly the gray-matter
paths, the white-matter paths, the csv path and the agreement path. -/
theorem manifest_order_and_positional_split
    (d : Bool) (u : Option String) (n : Nat)
    (h : n ≤ (availableSubjects d).length) :
    (file_names d (resolveUrls u d) n =
        file_names_gm d (resolveUrls u d).url_images n
          ++ file_names_wm d (resolveUrls u d).url_images n
          ++ file_names_extvars (resolveUrls u d).url_csv
          ++ file_names_dua (resolveUrls u d).url_dua) ∧
    gm_maps d u n = (localFiles d u n).take n ∧
    wm_maps d u n = ((localFiles d u n).drop n).take n ∧
    gm_maps d u n = (file_names_gm d (resolveUrls u d).url_images n).map Prod.fst ∧
    wm_maps d u n = (file_names_wm d (resolveUrls u d).url_images n).map Prod.fst ∧
    ext_vars_file d u n = "oasis_cross-sectional.csv" ∧
    data_usage_agreement d u n = "data_usage_agreement.txt" := by
  have hgm : ((file_names_gm d (resolveUrls u d).url_images n).map Prod.fst).length = n := by
    rw [List.length_map, length_file_names_gm]
    omega
  have hwm : ((file_names_wm d (resolveUrls u d).url_images n).map Prod.fst).length = n := by
    rw [List.length_map, length_file_names_wm]
    omega
  refine ⟨rfl, rfl, rfl, ?_, ?_, ?_, ?_⟩
  · show (localFiles d u n).take n = _
    rw [localFiles_eq_split, List.append_assoc]
    exact List.take_left' hgm
  · show ((localFiles d u n).drop n).take n = _
    rw [localFiles_eq_split, List.append_assoc, List.drop_left' hgm]
    exact List.take_left' hwm
  · show (localFiles d u n).getD ((localFiles d u n).length - 2) "" = _
    rw [localFiles_eq_split]
    exact getD_append_pair_left _ _ _
  · show (localFiles d u n).getD ((localFiles d u n).length - 1) "" = _
    rw [localFiles_eq_split]
    exact getD_append_pair_right _ _ _

/-- Witness for C5 at the DARTEL variant, no URL override, count 3. -/
theorem manifest_order_and_positional_split_witness :
    (file_names true (resolveUrls none true) 3 =
        file_names_gm true (resolveUrls none true).url_images 3
          ++ file_names_wm true (resolveUrls none true).url_images 3
          ++ file_names_extvars (resolveUrls none true).url_csv
          ++ file_names_dua (resolveUrls none true).url_dua) ∧
    gm_maps true none 3 = (localFiles true none 3).take 3 ∧
    wm_maps true none 3 = ((localFiles true none 3).drop 3).take 3 ∧
    gm_maps true none 3 = (file_names_gm true (resolveUrls none true).url_images 3).map Prod.fst ∧
    wm_maps true none 3 = (file_names_wm true (resolveUrls none true).url_images 3).map Prod.fst ∧
    ext_vars_file true none 3 = "oasis_cross-sectional.csv" ∧
    data_usage_agreement true none 3 = "data_usage_agreement.txt" :=
  manifest_order_and_positional_split true none 3
    (by rw [length_availableSubjects_dartel]; omega)

/-- C10: covariates filtering keeps exactly the rows whose id is among the
retrieved-subject tokens (derived from gray-matter base names in the same
OAS1_XXXX_MR1 encoding the table uses) and preserves the original row
order; for a table with rows for subjects 1..10 and retrieved set {1,3,5}
the result is exactly the rows of 1, 3 and 5, in original order. -/
theorem csv_filter_keeps_matching_rows_in_order :
    (∀ (csv_ids gm : List String), (filterCsv csv_ids gm).Sublist csv_ids) ∧
    (∀ (csv_ids gm : List String) (r : String),
        r ∈ filterCsv csv_ids gm ↔ r ∈ csv_ids ∧ r ∈ actual_subjects_ids gm) ∧
    filterCsv ((List.range' 1 10).map (fun s => "OAS1_" ++ zpad4 s ++ "_MR1"))
        [gmRelPath false 1, gmRelPath false 3, gmRelPath false 5]
      = ["OAS1_0001_MR1", "OAS1_0003_MR1", "OAS1_0005_MR1"] := by
  refine ⟨fun csv_ids gm => List.filter_sublist csv_ids,
          fun csv_ids gm r => ?_, by decide⟩
  simp [filterCsv]

end OasisVbm
